import Mathlib

/-!
Shallow embedding of the FleetLink vehicle-booking backend.

Times are integers (milliseconds since the epoch, as in JavaScript Date
values).  Identifiers are natural numbers standing for MongoDB object ids.
Monetary amounts are rationals; the value none for a cost models the NaN
that the JavaScript cost formula produces on unparseable pincodes.
Each definition mirrors one function of the source
(src/utils/helpers.js, src/models/Booking.js, src/models/Vehicle.js,
src/controllers/vehicleController.js, the booking controller).
-/

namespace FleetLink

/-- Lifecycle state of a vehicle (Vehicle.js: enum active, maintenance, retired). -/
inductive VehicleStatus
  | active
  | maintenance
  | retired
  deriving DecidableEq, Repr

/-- Lifecycle state of a booking (Booking.js: enum confirmed, in-progress, completed, cancelled). -/
inductive BookingStatus
  | confirmed
  | inProgress
  | completed
  | cancelled
  deriving DecidableEq, Repr

/-- A vehicle record (Vehicle.js schema). -/
structure Vehicle where
  _id : Nat
  name : String
  capacityKg : Int
  tyres : Int
  status : VehicleStatus
  deriving DecidableEq, Repr

/-- A booking record (Booking.js schema). -/
structure Booking where
  _id : Nat
  vehicleId : Nat
  customerId : String
  fromPincode : String
  toPincode : String
  startTime : Int
  endTime : Int
  estimatedRideDurationHours : Int
  status : BookingStatus
  totalCost : Option ℚ
  deriving DecidableEq, Repr

/-- Whitespace characters skipped by the JavaScript parseInt builtin. -/
def jsWhitespace (c : Char) : Bool :=
  c == ' ' || c == '\t' || c == '\n' || c == '\r' || c.toNat == 11 || c.toNat == 12 || c.toNat == 160

/-- Recognizer for hexadecimal digit characters. -/
def isHexDigitChar (c : Char) : Bool :=
  c.isDigit || decide (97 ≤ c.toNat ∧ c.toNat ≤ 102) || decide (65 ≤ c.toNat ∧ c.toNat ≤ 70)

/-- Numeric value of one hexadecimal digit character. -/
def hexDigitVal (c : Char) : Nat :=
  if c.isDigit then c.toNat - 48
  else if decide (97 ≤ c.toNat) then c.toNat - 87
  else c.toNat - 55

/-- Value of a list of decimal digit characters. -/
def decValue (ds : List Char) : Nat :=
  ds.foldl (fun a c => 10 * a + (c.toNat - 48)) 0

/-- Value of a list of hexadecimal digit characters. -/
def hexValue (ds : List Char) : Nat :=
  ds.foldl (fun a c => 16 * a + hexDigitVal c) 0

/-- Digit scanning of the JavaScript parseInt builtin after the optional sign:
a leading 0x or 0X switches to base 16, otherwise the leading decimal digits
are read; no digit at all gives NaN, modelled as none. -/
def parseIntCore (sign : Int) (cs : List Char) : Option Int :=
  match cs with
  | '0' :: c :: rest =>
      if c == 'x' || c == 'X' then
        let ds := rest.takeWhile isHexDigitChar
        if ds.isEmpty then none else some (sign * (hexValue ds : Int))
      else
        some (sign * (decValue (('0' :: c :: rest).takeWhile Char.isDigit) : Int))
  | _ =>
      let ds := cs.takeWhile Char.isDigit
      if ds.isEmpty then none else some (sign * (decValue ds : Int))

/-- The JavaScript parseInt builtin on a string with no explicit radix:
skip leading whitespace, read an optional sign, then digits; none models NaN. -/
def parseIntJS (s : String) : Option Int :=
  match s.data.dropWhile jsWhitespace with
  | '-' :: rest => parseIntCore (-1) rest
  | '+' :: rest => parseIntCore 1 rest
  | cs => parseIntCore 1 cs

/-- helpers.js calculateRideDuration: parse both pincodes; if either is NaN
the thrown error is caught and the fallback 2 is returned; otherwise
the duration is Math.max(Math.abs(from - to) % 24, 1). -/
def calculateRideDuration (fromPincode toPincode : String) : Int :=
  match parseIntJS fromPincode, parseIntJS toPincode with
  | some f, some t => max (((f - t).natAbs % 24 : Nat) : Int) 1
  | _, _ => 2

/-- Math.max of JavaScript on two rational numbers. -/
def jsMax (a b : ℚ) : ℚ := if a ≤ b then b else a

/-- Math.round of JavaScript: floor of x + 1/2, also for negative arguments. -/
def jsRound (x : ℚ) : ℤ := (x + 1/2).floor

/-- helpers.js calculateBookingCost.  On unparseable pincodes the JavaScript
arithmetic would yield NaN, modelled here as none; no caller of the booking
path reaches that case because pincodes are validated upstream. -/
def calculateBookingCost (durationHours : Int) (capacityKg : Int)
    (fromPincode toPincode : String) : Option ℚ :=
  let baseRatePerHour : ℚ := 500
  let capacityMultiplier : ℚ := jsMax 1 ((capacityKg : ℚ) / 1000)
  match parseIntJS toPincode, parseIntJS fromPincode with
  | some t, some f =>
      let distance : ℚ := ((t - f).natAbs : ℚ)
      let distanceMultiplier : ℚ := jsMax 1 (distance / 100)
      let totalCost := baseRatePerHour * (durationHours : ℚ) * capacityMultiplier * distanceMultiplier
      some ((jsRound (totalCost * 100) : ℚ) / 100)
  | _, _ => none

/-- Booking.js instance method overlapsWithTimeWindow: the proposed window
[startTime, endTime) against the window stored in the booking. -/
def overlapsWithTimeWindow (b : Booking) (startTime endTime : Int) : Bool :=
  decide (startTime < b.endTime) && decide (endTime > b.startTime)

/-- Booking.js static findOverlappingBookings: all bookings of the vehicle
with status confirmed or in-progress whose stored window overlaps
[startTime, endTime), minus the optionally excluded booking.  The underlying
store is a plain list; the function reads it and mutates nothing. -/
def findOverlappingBookings (bookings : List Booking) (vehicleId : Nat)
    (startTime endTime : Int) (excludeBookingId : Option Nat) : List Booking :=
  bookings.filter (fun b =>
    b.vehicleId == vehicleId
    && (b.status == BookingStatus.confirmed || b.status == BookingStatus.inProgress)
    && decide (b.startTime < endTime) && decide (b.endTime > startTime)
    && (match excludeBookingId with
        | none => true
        | some ex => b._id != ex))

/-- The persistent store: the sets of vehicle and booking records, plus the
next fresh object id.  MongoDB object ids are modelled as consecutive
natural numbers. -/
structure Store where
  vehicles : List Vehicle
  bookings : List Booking
  nextId : Nat
  deriving Repr

/-- The empty database. -/
def initialStore : Store := { vehicles := [], bookings := [], nextId := 0 }

/-- Body of a POST /api/vehicles request after JSON decoding.  A client may
send an extra status field; the Joi validator strips it and the controller
never reads it. -/
structure VehicleBody where
  name : String
  capacityKg : Int
  tyres : Int
  status : Option String
  deriving DecidableEq, Repr

/-- validation.js vehicleSchema with stripUnknown: trims the name and drops
every field other than name, capacityKg and tyres. -/
def validateVehicleBody (body : VehicleBody) : VehicleBody :=
  { name := body.name.trim, capacityKg := body.capacityKg, tyres := body.tyres, status := none }

/-- vehicleController.js addVehicle: reads only name, capacityKg and tyres
from the body and saves a new vehicle; the schema default supplies the
status active. -/
def addVehicle (s : Store) (body : VehicleBody) : Vehicle × Store :=
  let vehicle : Vehicle :=
    { _id := s.nextId
      name := body.name
      capacityKg := body.capacityKg
      tyres := body.tyres
      status := VehicleStatus.active }
  (vehicle, { s with vehicles := s.vehicles ++ [vehicle], nextId := s.nextId + 1 })

/-- Body of a POST /api/bookings request after JSON decoding and validation;
startTime is the parsed Date in milliseconds. -/
structure BookingRequest where
  vehicleId : Nat
  customerId : String
  fromPincode : String
  toPincode : String
  startTime : Int
  deriving DecidableEq, Repr

/-- Typed outcome of the booking admission path, as the presentation layer
maps it: notFound to 404, notAvailable to 400, conflict to 409 with the
conflict count, created to 201.  validationError models the mongoose
save-time validator rejecting a non-future start time. -/
inductive BookingOutcome
  | notFound
  | notAvailable
  | conflict (count : Nat)
  | validationError
  | created (booking : Booking)
  deriving Repr

/-- Booking controller createBooking: resolve the vehicle (404 if absent,
400 if not active), compute the duration and the window, re-check conflicts
against the current store, compute the cost and persist the new booking
with status confirmed.  The save step runs the Booking.js schema validator,
which rejects a start time that is not strictly in the future (now is the
clock value at save time). -/
def createBooking (s : Store) (now : Int) (req : BookingRequest) : BookingOutcome × Store :=
  match s.vehicles.find? (fun v => v._id == req.vehicleId) with
  | none => (BookingOutcome.notFound, s)
  | some vehicle =>
    if vehicle.status != VehicleStatus.active then
      (BookingOutcome.notAvailable, s)
    else
      let estimatedRideDurationHours := calculateRideDuration req.fromPincode req.toPincode
      let bookingStartTime := req.startTime
      let bookingEndTime := bookingStartTime + estimatedRideDurationHours * 3600000
      let overlappingBookings :=
        findOverlappingBookings s.bookings req.vehicleId bookingStartTime bookingEndTime none
      if overlappingBookings.length > 0 then
        (BookingOutcome.conflict overlappingBookings.length, s)
      else
        let totalCost :=
          calculateBookingCost estimatedRideDurationHours vehicle.capacityKg
            req.fromPincode req.toPincode
        let booking : Booking :=
          { _id := s.nextId
            vehicleId := req.vehicleId
            customerId := req.customerId
            fromPincode := req.fromPincode
            toPincode := req.toPincode
            startTime := bookingStartTime
            endTime := bookingEndTime
            estimatedRideDurationHours := estimatedRideDurationHours
            status := BookingStatus.confirmed
            totalCost := totalCost }
        if now < bookingStartTime then
          (BookingOutcome.created booking,
            { s with bookings := s.bookings ++ [booking], nextId := s.nextId + 1 })
        else
          (BookingOutcome.validationError, s)

/-- Typed outcome of the cancellation path. -/
inductive CancelOutcome
  | notFound
  | invalidState
  | tooLate
  | cancelled (booking : Booking)
  deriving Repr

/-- Booking controller cancelBooking: 404 if the booking does not exist,
invalid state unless the status is confirmed, too late when the start is
less than one hour (3600000 ms) away, else write status cancelled. -/
def cancelBooking (s : Store) (now : Int) (id : Nat) : CancelOutcome × Store :=
  match s.bookings.find? (fun b => b._id == id) with
  | none => (CancelOutcome.notFound, s)
  | some booking =>
    if booking.status != BookingStatus.confirmed then
      (CancelOutcome.invalidState, s)
    else if booking.startTime - now < 3600000 then
      (CancelOutcome.tooLate, s)
    else
      let cancelledBooking := { booking with status := BookingStatus.cancelled }
      (CancelOutcome.cancelled cancelledBooking,
        { s with bookings :=
            s.bookings.map (fun b => if b._id == id then cancelledBooking else b) })

/-- The status strings accepted by the generic booking status update. -/
def parseBookingStatus (status : String) : Option BookingStatus :=
  if status == "confirmed" then some BookingStatus.confirmed
  else if status == "in-progress" then some BookingStatus.inProgress
  else if status == "completed" then some BookingStatus.completed
  else if status == "cancelled" then some BookingStatus.cancelled
  else none

/-- Typed outcome of the generic status update paths. -/
inductive UpdateOutcome
  | invalidStatus
  | notFound
  | updated
  deriving DecidableEq, Repr

/-- Booking controller updateBookingStatus: validate that the target status
is one of the four known values, then write it unconditionally. -/
def updateBookingStatus (s : Store) (id : Nat) (status : String) : UpdateOutcome × Store :=
  match parseBookingStatus status with
  | none => (UpdateOutcome.invalidStatus, s)
  | some newStatus =>
    match s.bookings.find? (fun b => b._id == id) with
    | none => (UpdateOutcome.notFound, s)
    | some booking =>
      let updatedBooking := { booking with status := newStatus }
      (UpdateOutcome.updated,
        { s with bookings :=
            s.bookings.map (fun b => if b._id == id then updatedBooking else b) })

/-- The status strings accepted by the vehicle status update. -/
def parseVehicleStatus (status : String) : Option VehicleStatus :=
  if status == "active" then some VehicleStatus.active
  else if status == "maintenance" then some VehicleStatus.maintenance
  else if status == "retired" then some VehicleStatus.retired
  else none

/-- vehicleController.js updateVehicleStatus: validate the status string,
then write it to the vehicle. -/
def updateVehicleStatus (s : Store) (id : Nat) (status : String) : UpdateOutcome × Store :=
  match parseVehicleStatus status with
  | none => (UpdateOutcome.invalidStatus, s)
  | some newStatus =>
    match s.vehicles.find? (fun v => v._id == id) with
    | none => (UpdateOutcome.notFound, s)
    | some vehicle =>
      let updatedVehicle := { vehicle with status := newStatus }
      (UpdateOutcome.updated,
        { s with vehicles :=
            s.vehicles.map (fun v => if v._id == id then updatedVehicle else v) })

/-- One state-mutating core operation, as dispatched by the HTTP routes. -/
inductive Op
  | addVehicle (body : VehicleBody)
  | createBooking (now : Int) (req : BookingRequest)
  | cancelBooking (now : Int) (id : Nat)
  | updateBookingStatus (id : Nat) (status : String)
  | updateVehicleStatus (id : Nat) (status : String)
  deriving DecidableEq, Repr

/-- Effect of one operation on the store (outcomes discarded). -/
def applyOp (s : Store) (op : Op) : Store :=
  match op with
  | Op.addVehicle body => (addVehicle s (validateVehicleBody body)).2
  | Op.createBooking now req => (createBooking s now req).2
  | Op.cancelBooking now id => (cancelBooking s now id).2
  | Op.updateBookingStatus id status => (updateBookingStatus s id status).2
  | Op.updateVehicleStatus id status => (updateVehicleStatus s id status).2

/-- The store reached by running a sequence of operations from the empty
database. -/
def runOps (ops : List Op) : Store :=
  ops.foldl applyOp initialStore

/-- Recognizer for the generic, intentionally permissive booking status
update operation. -/
def isGenericStatusUpdate (op : Op) : Bool :=
  match op with
  | Op.updateBookingStatus _ _ => true
  | _ => false

/-- Status values that count toward conflicts. -/
def bookingActive (b : Booking) : Prop :=
  b.status = BookingStatus.confirmed ∨ b.status = BookingStatus.inProgress

instance (b : Booking) : Decidable (bookingActive b) := by
  unfold bookingActive; infer_instance

/-- The half-open windows of two bookings intersect. -/
def windowsOverlapProp (b1 b2 : Booking) : Prop :=
  b1.startTime < b2.endTime ∧ b2.startTime < b1.endTime

instance (b1 b2 : Booking) : Decidable (windowsOverlapProp b1 b2) := by
  unfold windowsOverlapProp; infer_instance

/-- Pairwise disjointness of the active booking windows of every vehicle. -/
def DisjointBookings (l : List Booking) : Prop :=
  ∀ b1 ∈ l, ∀ b2 ∈ l,
    b1._id ≠ b2._id → b1.vehicleId = b2.vehicleId →
    bookingActive b1 → bookingActive b2 → ¬ windowsOverlapProp b1 b2

instance (l : List Booking) : Decidable (DisjointBookings l) := by
  unfold DisjointBookings; infer_instance

/-- The core disjointness invariant of a store. -/
def DisjointInvariant (s : Store) : Prop :=
  DisjointBookings s.bookings

instance (s : Store) : Decidable (DisjointInvariant s) := by
  unfold DisjointInvariant; infer_instance

/-- Comparison used by the ascending capacity sort of the availability
query (sort capacityKg: 1). -/
def capLE (v w : Vehicle) : Prop := v.capacityKg ≤ w.capacityKg

instance : DecidableRel capLE := fun v w =>
  inferInstanceAs (Decidable (v.capacityKg ≤ w.capacityKg))

instance : IsTotal Vehicle capLE := ⟨fun v w => le_total v.capacityKg w.capacityKg⟩

instance : IsTrans Vehicle capLE := ⟨fun _ _ _ h1 h2 => le_trans h1 h2⟩

/-- One element of the availability result: the vehicle plus the computed
duration, route and time window annotations. -/
structure AvailableVehicleEntry where
  vehicle : Vehicle
  estimatedRideDurationHours : Int
  routeFrom : String
  routeTo : String
  windowStart : Int
  windowEnd : Int
  deriving Repr

/-- vehicleController.js findAvailableVehicles: compute the duration and the
window, select the active vehicles of sufficient capacity sorted by
ascending capacity, and keep those with zero overlapping bookings, each
annotated with the duration, route and window.  An empty selection
yields the empty list, never an error. -/
def findAvailableVehicles (s : Store) (capacityRequired : Int)
    (fromPincode toPincode : String) (startTime : Int) : List AvailableVehicleEntry :=
  let estimatedRideDurationHours := calculateRideDuration fromPincode toPincode
  let bookingStartTime := startTime
  let bookingEndTime := bookingStartTime + estimatedRideDurationHours * 3600000
  let suitableVehicles :=
    List.insertionSort capLE
      (s.vehicles.filter (fun v =>
        decide (capacityRequired ≤ v.capacityKg) && v.status == VehicleStatus.active))
  let availableVehicles :=
    suitableVehicles.filter (fun v =>
      (findOverlappingBookings s.bookings v._id bookingStartTime bookingEndTime none).length == 0)
  availableVehicles.map (fun v =>
    { vehicle := v
      estimatedRideDurationHours := estimatedRideDurationHours
      routeFrom := fromPincode
      routeTo := toPincode
      windowStart := bookingStartTime
      windowEnd := bookingEndTime })

/-!
Interleaving model of concurrent admissions.  The admission handler is
asynchronous: it awaits the conflict query and later awaits the save, and
between those two store operations the Node.js event loop may run steps of
other requests.  A request is therefore modelled as two atomic phases
against the shared store: the check phase (vehicle lookup, duration and
window computation, conflict query, cost computation — all reads) and the
commit phase (the save, which runs only the schema validators and inserts
unconditionally).  A schedule chooses which of two concurrent requests
moves at each step.
-/

/-- Progress of one in-flight admission request. -/
inductive ProcState
  | start
  | ready (booking : Booking)
  | done (outcome : BookingOutcome)
  deriving Repr

/-- The read-only first phase of createBooking, up to and including the
conflict re-check; on success it holds the fully computed booking document,
not yet saved. -/
def checkPhase (s : Store) (req : BookingRequest) (freshId : Nat) : ProcState :=
  match s.vehicles.find? (fun v => v._id == req.vehicleId) with
  | none => ProcState.done BookingOutcome.notFound
  | some vehicle =>
    if vehicle.status != VehicleStatus.active then
      ProcState.done BookingOutcome.notAvailable
    else
      let estimatedRideDurationHours := calculateRideDuration req.fromPincode req.toPincode
      let bookingStartTime := req.startTime
      let bookingEndTime := bookingStartTime + estimatedRideDurationHours * 3600000
      let overlappingBookings :=
        findOverlappingBookings s.bookings req.vehicleId bookingStartTime bookingEndTime none
      if overlappingBookings.length > 0 then
        ProcState.done (BookingOutcome.conflict overlappingBookings.length)
      else
        ProcState.ready
          { _id := freshId
            vehicleId := req.vehicleId
            customerId := req.customerId
            fromPincode := req.fromPincode
            toPincode := req.toPincode
            startTime := bookingStartTime
            endTime := bookingEndTime
            estimatedRideDurationHours := estimatedRideDurationHours
            status := BookingStatus.confirmed
            totalCost :=
              calculateBookingCost estimatedRideDurationHours vehicle.capacityKg
                req.fromPincode req.toPincode }

/-- The second phase of createBooking: the save.  It runs the schema
validator on the start time and inserts the document; it does not repeat
the conflict check. -/
def commitPhase (s : Store) (now : Int) (b : Booking) : Store × ProcState :=
  if now < b.startTime then
    ({ s with bookings := s.bookings ++ [b] },
      ProcState.done (BookingOutcome.created b))
  else
    (s, ProcState.done BookingOutcome.validationError)

/-- One atomic step of an in-flight request against the shared store. -/
def procStep (now : Int) (req : BookingRequest) (freshId : Nat)
    (s : Store) (p : ProcState) : Store × ProcState :=
  match p with
  | ProcState.start => (s, checkPhase s req freshId)
  | ProcState.ready b => commitPhase s now b
  | ProcState.done o => (s, ProcState.done o)

/-- Joint state of two concurrent admission requests. -/
structure AdmissionRace where
  store : Store
  proc1 : ProcState
  proc2 : ProcState
  deriving Repr

/-- Let the request selected by the scheduler take its next atomic step. -/
def raceStep (now : Int) (req1 req2 : BookingRequest)
    (race : AdmissionRace) (runSecond : Bool) : AdmissionRace :=
  if runSecond then
    let (s, p) := procStep now req2 2001 race.store race.proc2
    { race with store := s, proc2 := p }
  else
    let (s, p) := procStep now req1 1001 race.store race.proc1
    { race with store := s, proc1 := p }

/-- Run two concurrent admission requests under the given schedule. -/
def runRace (now : Int) (req1 req2 : BookingRequest)
    (sched : List Bool) (race : AdmissionRace) : AdmissionRace :=
  sched.foldl (raceStep now req1 req2) race

/-- A request that ended in a successful admission. -/
def ProcState.isCreated (p : ProcState) : Bool :=
  match p with
  | ProcState.done (BookingOutcome.created _) => true
  | _ => false

/-- A request that ended in a Conflict outcome. -/
def ProcState.isConflict (p : ProcState) : Bool :=
  match p with
  | ProcState.done (BookingOutcome.conflict _) => true
  | _ => false

/-!
Spec-side definitions (the shapes the claims talk about) and concrete
fixtures used by witnesses and counterexamples.
-/

/-- An active 1000 kg vehicle with object id 0. -/
def demoVehicle : Vehicle :=
  { _id := 0, name := "Truck A", capacityKg := 1000, tyres := 4, status := VehicleStatus.active }

/-- A store holding only the demo vehicle. -/
def demoStore : Store := { vehicles := [demoVehicle], bookings := [], nextId := 1 }

/-- A pre-validated booking request on the demo vehicle for the one-hour
window starting at time 10000000. -/
def demoRequest : BookingRequest :=
  { vehicleId := 0, customerId := "CUST001", fromPincode := "110001", toPincode := "110002",
    startTime := 10000000 }

/-- A cancellation that ended in the too-late outcome. -/
def CancelOutcome.isTooLate (o : CancelOutcome) : Bool :=
  match o with
  | CancelOutcome.tooLate => true
  | _ => false

/-- A cancellation that succeeded. -/
def CancelOutcome.isCancelled (o : CancelOutcome) : Bool :=
  match o with
  | CancelOutcome.cancelled _ => true
  | _ => false

/-- End of the window requested by a booking request, computed as in the
controller: startTime plus the estimated duration in hours times
3600000 ms. -/
def requestedEnd (req : BookingRequest) : Int :=
  req.startTime + calculateRideDuration req.fromPincode req.toPincode * 3600000

/-- The conflicts the admission re-check sees for a request. -/
def requestConflicts (s : Store) (req : BookingRequest) : List Booking :=
  findOverlappingBookings s.bookings req.vehicleId req.startTime (requestedEnd req) none

/-- The booking document the admission path persists on success. -/
def admittedBooking (s : Store) (v : Vehicle) (req : BookingRequest) : Booking :=
  { _id := s.nextId
    vehicleId := req.vehicleId
    customerId := req.customerId
    fromPincode := req.fromPincode
    toPincode := req.toPincode
    startTime := req.startTime
    endTime := requestedEnd req
    estimatedRideDurationHours := calculateRideDuration req.fromPincode req.toPincode
    status := BookingStatus.confirmed
    totalCost := calculateBookingCost (calculateRideDuration req.fromPincode req.toPincode)
      v.capacityKg req.fromPincode req.toPincode }

/-- Claimed behaviour of the admission path: NotFound iff the vehicle is
absent, otherwise NotAvailable iff it is not active, otherwise Conflict
carrying the conflict count iff the re-check finds overlaps; every failure
leaves the store unchanged; otherwise exactly one new confirmed booking is
persisted. -/
def C3Spec (s : Store) (now : Int) (req : BookingRequest) : Prop :=
  ((createBooking s now req).1 = BookingOutcome.notFound ↔
    s.vehicles.find? (fun v => v._id == req.vehicleId) = none)
  ∧ ((createBooking s now req).1 = BookingOutcome.notAvailable ↔
      ∃ v, s.vehicles.find? (fun v2 => v2._id == req.vehicleId) = some v
        ∧ v.status ≠ VehicleStatus.active)
  ∧ (∀ n, (createBooking s now req).1 = BookingOutcome.conflict n ↔
      ((∃ v, s.vehicles.find? (fun v2 => v2._id == req.vehicleId) = some v
          ∧ v.status = VehicleStatus.active)
        ∧ requestConflicts s req ≠ [] ∧ n = (requestConflicts s req).length))
  ∧ (((createBooking s now req).1 = BookingOutcome.notFound
      ∨ (createBooking s now req).1 = BookingOutcome.notAvailable
      ∨ ∃ n, (createBooking s now req).1 = BookingOutcome.conflict n)
      → (createBooking s now req).2 = s)
  ∧ (∀ v, s.vehicles.find? (fun v2 => v2._id == req.vehicleId) = some v →
      v.status = VehicleStatus.active → requestConflicts s req = [] →
      (createBooking s now req).1 = BookingOutcome.created (admittedBooking s v req)
        ∧ (createBooking s now req).2.bookings = s.bookings ++ [admittedBooking s v req]
        ∧ (createBooking s now req).2.vehicles = s.vehicles
        ∧ (admittedBooking s v req).status = BookingStatus.confirmed)

/-- The annotated entry the availability query produces for a vehicle. -/
def availabilityEntry (v : Vehicle) (fromP toP : String) (startT : Int) : AvailableVehicleEntry :=
  { vehicle := v
    estimatedRideDurationHours := calculateRideDuration fromP toP
    routeFrom := fromP
    routeTo := toP
    windowStart := startT
    windowEnd := startT + calculateRideDuration fromP toP * 3600000 }

/-- All booking ids are below the fresh-id counter. -/
def BookingIdsBounded (s : Store) : Prop := ∀ b ∈ s.bookings, b._id < s.nextId

/-- Booking ids are pairwise distinct. -/
def NodupBookingIds (s : Store) : Prop := (s.bookings.map Booking._id).Nodup

/-- A degenerate zero-length half-open window stored in a booking. -/
def emptyWindowBooking : Booking :=
  { _id := 0, vehicleId := 0, customerId := "CUST001", fromPincode := "110001",
    toPincode := "110001", startTime := 2, endTime := 2,
    estimatedRideDurationHours := 0, status := BookingStatus.confirmed, totalCost := none }

/-- A booking whose stored window is the given half-open interval. -/
def windowBooking (startT endT : Int) : Booking :=
  { emptyWindowBooking with
    startTime := startT
    endTime := endT }

/-- A cancelled booking on vehicle 0 whose stored window [0, 8000000)
numerically overlaps most demo windows. -/
def cancelledWideBooking : Booking :=
  { emptyWindowBooking with
    _id := 7
    startTime := 0
    endTime := 8000000
    status := BookingStatus.cancelled }

/-- A confirmed one-hour booking with object id 1 on vehicle 0 starting at
the given time. -/
def confirmedBookingAt (startT : Int) : Booking :=
  { emptyWindowBooking with
    _id := 1
    startTime := startT
    endTime := startT + 3600000
    estimatedRideDurationHours := 1 }

/-- A store holding the demo vehicle and one confirmed booking starting at
the given time. -/
def storeWithBookingAt (startT : Int) : Store :=
  { vehicles := [demoVehicle], bookings := [confirmedBookingAt startT], nextId := 2 }

/-- A store with an empty fleet. -/
def emptyFleetStore : Store := { vehicles := [], bookings := [], nextId := 0 }

/-- The operation sequence that breaks the disjointness invariant: admit a
booking, cancel it, admit a second booking on the same window, then use the
generic status update to flip the first booking back to confirmed. -/
def c1ops : List Op :=
  [Op.addVehicle { name := "Truck A", capacityKg := 1000, tyres := 4, status := none },
   Op.createBooking 0 demoRequest,
   Op.cancelBooking 0 1,
   Op.createBooking 0 { demoRequest with customerId := "CUST002" },
   Op.updateBookingStatus 1 ("confirmed")]

/-- The reachable prefix: admit a booking and cancel it, leaving one
cancelled booking with id 1 in the store. -/
def c8ops : List Op := c1ops.take 3

/-- The cancelled booking that the c8ops prefix leaves in the store. -/
def c8booking : Booking :=
  { _id := 1
    vehicleId := 0
    customerId := "CUST001"
    fromPincode := "110001"
    toPincode := "110002"
    startTime := 10000000
    endTime := 13600000
    estimatedRideDurationHours := 1
    status := BookingStatus.cancelled
    totalCost := calculateBookingCost 1 1000 ("110001") ("110002") }

/-- A second identical admission request from another customer. -/
def raceReq2 : BookingRequest := { demoRequest with customerId := "CUST002" }

/-- Two concurrent admissions for the same vehicle and window, started
against the demo store. -/
def raceInit : AdmissionRace :=
  { store := demoStore, proc1 := ProcState.start, proc2 := ProcState.start }

/-!
Theorems.
-/

/-- C9: calculateRideDuration returns max(1, |from - to| mod 24) when both
pincodes parse, the fixed fallback 2 when either does not, always lies in
[1, 23], and equals 1 on identical parseable pincodes. -/
theorem C9_estimateDuration_spec (fromP toP : String) :
    (∀ f t : Int, parseIntJS fromP = some f → parseIntJS toP = some t →
      calculateRideDuration fromP toP = max 1 (((f - t).natAbs % 24 : Nat) : Int))
    ∧ ((parseIntJS fromP = none ∨ parseIntJS toP = none) → calculateRideDuration fromP toP = 2)
    ∧ (1 ≤ calculateRideDuration fromP toP ∧ calculateRideDuration fromP toP ≤ 23)
    ∧ (∀ (x : String) (n : Int), parseIntJS x = some n → calculateRideDuration x x = 1) := by
  have hbound : ∀ f t : Int, (((f - t).natAbs % 24 : Nat) : Int) ≤ 23 := by
    intro f t
    have h24 : (f - t).natAbs % 24 < 24 := Nat.mod_lt _ (by norm_num)
    exact_mod_cast Nat.le_of_lt_succ h24
  refine ⟨?_, ?_, ?_, ?_⟩
  · intro f t hf ht
    simp only [calculateRideDuration, hf, ht]
    exact max_comm _ _
  · intro h
    rcases h with h | h
    · simp [calculateRideDuration, h]
    · cases hf : parseIntJS fromP <;> simp [calculateRideDuration, hf, h]
  · cases hf : parseIntJS fromP with
    | none => cases ht : parseIntJS toP <;> norm_num [calculateRideDuration, hf, ht]
    | some f =>
      cases ht : parseIntJS toP with
      | none => norm_num [calculateRideDuration, hf, ht]
      | some t =>
        simp only [calculateRideDuration, hf, ht]
        exact ⟨le_max_right _ _, max_le (hbound f t) (by norm_num)⟩
  · intro x n hx
    simp [calculateRideDuration, hx]

/-- C9 witness: the bounds hold at the concrete route 110001 to 110005. -/
theorem C9_witness :
    1 ≤ calculateRideDuration ("110001") ("110005")
    ∧ calculateRideDuration ("110001") ("110005") ≤ 23 :=
  (C9_estimateDuration_spec ("110001") ("110005")).2.2.1

/-- C5 counterexample: the empty half-open window [2, 2) does NOT overlap an
identical copy of itself, refuting the unconditional self-overlap clause. -/
theorem C5_counterexample :
    ¬ overlapsWithTimeWindow emptyWindowBooking
        emptyWindowBooking.startTime emptyWindowBooking.endTime = true := by decide

/-- C5 amended: the predicate holds iff startA < endB and startB < endA, it
is symmetric, a NONEMPTY window overlaps an identical copy of itself, and
back-to-back windows never overlap. -/
theorem C5_overlap_amended (b other : Booking) (startA endA : Int) :
    (overlapsWithTimeWindow b startA endA = true ↔ startA < b.endTime ∧ b.startTime < endA)
    ∧ (overlapsWithTimeWindow b other.startTime other.endTime
        = overlapsWithTimeWindow other b.startTime b.endTime)
    ∧ (b.startTime < b.endTime → overlapsWithTimeWindow b b.startTime b.endTime = true)
    ∧ (endA = b.startTime → overlapsWithTimeWindow b startA endA = false) := by
  refine ⟨?_, ?_, ?_, ?_⟩
  · simp [overlapsWithTimeWindow, gt_iff_lt, and_comm]
  · simp only [overlapsWithTimeWindow, gt_iff_lt]
    exact Bool.and_comm _ _
  · intro h
    simp [overlapsWithTimeWindow, gt_iff_lt, h]
  · intro h
    subst h
    simp [overlapsWithTimeWindow]

/-- C5 witness for the amended statement: the examples of the spec, windows
[2, 6) versus [4, 8), their self-overlap, and the adjacency [2, 6) versus
[6, 10). -/
theorem C5_witness :
    overlapsWithTimeWindow (windowBooking 4 8) 2 6 = true
    ∧ overlapsWithTimeWindow (windowBooking 2 6) 2 6 = true
    ∧ overlapsWithTimeWindow (windowBooking 6 10) 2 6 = false := by
  refine ⟨?_, ?_, ?_⟩
  · exact (C5_overlap_amended (windowBooking 4 8) emptyWindowBooking 2 6).1.mpr (by decide)
  · exact (C5_overlap_amended (windowBooking 2 6) emptyWindowBooking 2 6).1.mpr (by decide)
  · exact (C5_overlap_amended (windowBooking 6 10) emptyWindowBooking 2 6).2.2.2 (by decide)

/-- C4: findOverlappingBookings returns exactly the bookings of the vehicle
whose status is confirmed or in-progress and whose window overlaps the
proposed half-open window, minus the excluded booking; completed and
cancelled bookings never appear; the result is a sublist of the store (the
query reads and never writes). -/
theorem C4_findConflicts_spec (bookings : List Booking) (vehicleId : Nat)
    (startT endT : Int) (excl : Option Nat) (b : Booking) :
    (b ∈ findOverlappingBookings bookings vehicleId startT endT excl ↔
      b ∈ bookings ∧ b.vehicleId = vehicleId
        ∧ (b.status = BookingStatus.confirmed ∨ b.status = BookingStatus.inProgress)
        ∧ b.startTime < endT ∧ startT < b.endTime
        ∧ ∀ ex, excl = some ex → b._id ≠ ex)
    ∧ (b ∈ findOverlappingBookings bookings vehicleId startT endT excl →
        b.status ≠ BookingStatus.completed ∧ b.status ≠ BookingStatus.cancelled)
    ∧ (findOverlappingBookings bookings vehicleId startT endT excl).Sublist bookings := by
  have hmem : b ∈ findOverlappingBookings bookings vehicleId startT endT excl ↔
      b ∈ bookings ∧ b.vehicleId = vehicleId
        ∧ (b.status = BookingStatus.confirmed ∨ b.status = BookingStatus.inProgress)
        ∧ b.startTime < endT ∧ startT < b.endTime
        ∧ ∀ ex, excl = some ex → b._id ≠ ex := by
    cases excl <;>
      simp [findOverlappingBookings, List.mem_filter, gt_iff_lt, and_assoc]
  refine ⟨hmem, ?_, List.filter_sublist _⟩
  · intro h
    rcases (hmem.mp h).2.2.1 with hs | hs <;> simp [hs]

/-- C4 witness: at a concrete store, a cancelled booking with a numerically
overlapping window is not returned. -/
theorem C4_witness :
    ¬ (cancelledWideBooking
        ∈ findOverlappingBookings [cancelledWideBooking] 0 0 8000000 none) := by
  intro h
  rcases ((C4_findConflicts_spec [cancelledWideBooking] 0 0 8000000 none
      cancelledWideBooking).2.1 h) with ⟨_, hc⟩
  exact hc rfl

/-- C10: a vehicle created through addVehicle has status active right after
creation, whatever the request body carried: the validator strips the status
field, the controller reads only name, capacityKg and tyres, and the schema
default supplies active. -/
theorem C10_addVehicle_active (s : Store) (body : VehicleBody) :
    (validateVehicleBody body).status = none
    ∧ (addVehicle s (validateVehicleBody body)).1.status = VehicleStatus.active
    ∧ (addVehicle s body).1.status = VehicleStatus.active
    ∧ ∀ v ∈ (addVehicle s (validateVehicleBody body)).2.vehicles,
        v ∈ s.vehicles ∨ v.status = VehicleStatus.active := by
  refine ⟨rfl, rfl, rfl, ?_⟩
  intro v hv
  rcases List.mem_append.mp hv with h | h
  · exact Or.inl h
  · right
    rw [List.mem_singleton.mp h]

/-- C10 witness: a body that smuggles a status maintenance field still
produces an active vehicle. -/
theorem C10_witness :
    (addVehicle demoStore
      (validateVehicleBody
        { name := "Van B", capacityKg := 500, tyres := 4, status := some ("maintenance") })).1.status
      = VehicleStatus.active :=
  (C10_addVehicle_active demoStore
    { name := "Van B", capacityKg := 500, tyres := 4, status := some ("maintenance") }).2.1

/-- C7: cancelBooking applies its checks in order — NotFound when the
booking is absent, InvalidState unless the status is confirmed, TooLate
when the start is under one hour away, else it writes status cancelled;
a booking starting 90 minutes ahead is cancellable and one starting 30
minutes ahead is too late. -/
theorem C7_cancel_spec (s : Store) (now : Int) (id : Nat) :
    ((cancelBooking s now id).1 = CancelOutcome.notFound ↔
      s.bookings.find? (fun b => b._id == id) = none)
    ∧ ((cancelBooking s now id).1 = CancelOutcome.notFound → (cancelBooking s now id).2 = s)
    ∧ (∀ b, s.bookings.find? (fun b2 => b2._id == id) = some b →
        b.status ≠ BookingStatus.confirmed →
        (cancelBooking s now id).1 = CancelOutcome.invalidState ∧ (cancelBooking s now id).2 = s)
    ∧ (∀ b, s.bookings.find? (fun b2 => b2._id == id) = some b →
        b.status = BookingStatus.confirmed → b.startTime - now < 3600000 →
        (cancelBooking s now id).1 = CancelOutcome.tooLate ∧ (cancelBooking s now id).2 = s)
    ∧ (∀ b, s.bookings.find? (fun b2 => b2._id == id) = some b →
        b.status = BookingStatus.confirmed → 3600000 ≤ b.startTime - now →
        (cancelBooking s now id).1
            = CancelOutcome.cancelled { b with status := BookingStatus.cancelled }
          ∧ (cancelBooking s now id).2.bookings
              = s.bookings.map
                  (fun x => if x._id == id then { b with status := BookingStatus.cancelled } else x)
          ∧ (cancelBooking s now id).2.vehicles = s.vehicles)
    ∧ ((cancelBooking (storeWithBookingAt 5400000) 0 1).1.isCancelled = true
        ∧ (cancelBooking (storeWithBookingAt 5400000) 0 1).2.bookings.map Booking.status
            = [BookingStatus.cancelled])
    ∧ (cancelBooking (storeWithBookingAt 1800000) 0 1).1.isTooLate = true := by
  refine ⟨?_, ?_, ?_, ?_, ?_, by decide, by decide⟩
  · cases hfind : s.bookings.find? (fun b => b._id == id) with
    | none => simp [cancelBooking, hfind]
    | some b =>
      simp only [cancelBooking, hfind]
      split_ifs <;> simp
  · intro h
    cases hfind : s.bookings.find? (fun b => b._id == id) with
    | none => simp [cancelBooking, hfind]
    | some b =>
      simp only [cancelBooking, hfind] at h
      split_ifs at h
  · intro b hfind hst
    have hne : (b.status != BookingStatus.confirmed) = true := by
      simpa using hst
    simp [cancelBooking, hfind, hne]
  · intro b hfind hst hlate
    simp [cancelBooking, hfind, hst, hlate]
  · intro b hfind hst hok
    have hnl : ¬ b.startTime - now < 3600000 := not_lt.mpr hok
    simp [cancelBooking, hfind, hst, hnl]

/-- C7 witness: the ordered checks at a concrete store — cancelling the
missing booking 9 is NotFound, and the 90-minute booking 1 is written back
as cancelled. -/
theorem C7_witness :
    (cancelBooking (storeWithBookingAt 5400000) 0 9).1 = CancelOutcome.notFound
    ∧ (cancelBooking (storeWithBookingAt 5400000) 0 1).2.bookings.map Booking.status
        = [BookingStatus.cancelled] :=
  ⟨(C7_cancel_spec (storeWithBookingAt 5400000) 0 9).1.mpr (by decide),
    (C7_cancel_spec (storeWithBookingAt 5400000) 0 1).2.2.2.2.2.1.2⟩

/-- C3: the admission path satisfies the claimed outcome characterisation,
under the validated-input precondition that the requested start time is
strictly in the future (enforced upstream by the Joi schema and re-checked
by the mongoose save validator). -/
theorem C3_createBooking_spec (s : Store) (now : Int) (req : BookingRequest)
    (hval : now < req.startTime) : C3Spec s now req := by
  unfold C3Spec
  cases hfind : s.vehicles.find? (fun v => v._id == req.vehicleId) with
  | none =>
    have hout : createBooking s now req = (BookingOutcome.notFound, s) := by
      unfold createBooking
      rw [hfind]
    rw [hout]
    simp [hfind]
  | some vehicle =>
    by_cases hst : vehicle.status = VehicleStatus.active
    · have hbne : (vehicle.status != VehicleStatus.active) = false := by simp [hst]
      by_cases hlen : 0 < (requestConflicts s req).length
      · have hlen2 := hlen
        unfold requestConflicts requestedEnd at hlen2
        have hout : createBooking s now req
            = (BookingOutcome.conflict (requestConflicts s req).length, s) := by
          unfold createBooking requestConflicts requestedEnd
          rw [hfind]
          simp [hbne, hlen2]
        have hne : requestConflicts s req ≠ [] := by
          intro hn
          rw [hn] at hlen
          simp at hlen
        rw [hout]
        refine ⟨by simp [hfind], by simp [hst], ?_, fun _ => rfl, ?_⟩
        · intro n
          simp [hst, hne, eq_comm]
        · intro v hv hva hc
          exact absurd hc hne
      · have hnil : requestConflicts s req = [] := by
          rw [← List.length_eq_zero]
          omega
        have hlen2 := hlen
        unfold requestConflicts requestedEnd at hlen2
        have hout : createBooking s now req
            = (BookingOutcome.created (admittedBooking s vehicle req),
                { s with
                  bookings := s.bookings ++ [admittedBooking s vehicle req]
                  nextId := s.nextId + 1 }) := by
          unfold createBooking admittedBooking requestedEnd
          rw [hfind]
          simp [hbne, hlen2, hval]
        rw [hout]
        refine ⟨by simp, by simp [hst], ?_, ?_, ?_⟩
        · intro n
          simp [hnil]
        · intro h
          rcases h with h | h | ⟨n, h⟩ <;> simp at h
        · intro v hv hva hc
          have hveq : vehicle = v := Option.some_inj.mp hv
          subst hveq
          exact ⟨rfl, rfl, rfl, rfl⟩
    · have hbne : (vehicle.status != VehicleStatus.active) = true := by
        simpa using hst
      have hout : createBooking s now req = (BookingOutcome.notAvailable, s) := by
        unfold createBooking
        rw [hfind]
        simp [hbne]
      rw [hout]
      refine ⟨by simp [hfind], by simp [hst], ?_, fun _ => rfl, ?_⟩
      · intro n
        simp [hst]
      · intro v hv hva hc
        have hveq : vehicle = v := Option.some_inj.mp hv
        subst hveq
        exact absurd hva hst

/-- C3 witness: the admission characterisation instantiated at the demo
store, clock 0 and the demo request, whose start time is in the future. -/
theorem C3_witness : (0 : Int) < demoRequest.startTime ∧ C3Spec demoStore 0 demoRequest :=
  ⟨by decide, C3_createBooking_spec demoStore 0 demoRequest (by decide)⟩

/-- C6: findAvailableVehicles returns exactly the active vehicles of
sufficient capacity with zero conflicts for the computed window, in
ascending capacity order, each annotated with the computed duration, route
and window; when no vehicle qualifies or all qualifying vehicles conflict
it returns the empty list. -/
theorem C6_findAvailable_spec (s : Store) (cap : Int) (fromP toP : String) (startT : Int) :
    (∀ e, e ∈ findAvailableVehicles s cap fromP toP startT ↔
      ∃ v, v ∈ s.vehicles ∧ v.status = VehicleStatus.active ∧ cap ≤ v.capacityKg
        ∧ findOverlappingBookings s.bookings v._id startT
            (startT + calculateRideDuration fromP toP * 3600000) none = []
        ∧ e = availabilityEntry v fromP toP startT)
    ∧ ((findAvailableVehicles s cap fromP toP startT).map
        (fun e => e.vehicle.capacityKg)).Sorted (· ≤ ·)
    ∧ (∀ e ∈ findAvailableVehicles s cap fromP toP startT,
        e.estimatedRideDurationHours = calculateRideDuration fromP toP
        ∧ e.routeFrom = fromP ∧ e.routeTo = toP ∧ e.windowStart = startT
        ∧ e.windowEnd = startT + calculateRideDuration fromP toP * 3600000)
    ∧ ((∀ v ∈ s.vehicles, v.status = VehicleStatus.active → cap ≤ v.capacityKg →
          findOverlappingBookings s.bookings v._id startT
            (startT + calculateRideDuration fromP toP * 3600000) none ≠ []) →
        findAvailableVehicles s cap fromP toP startT = []) := by
  have hmem : ∀ e, e ∈ findAvailableVehicles s cap fromP toP startT ↔
      ∃ v, v ∈ s.vehicles ∧ v.status = VehicleStatus.active ∧ cap ≤ v.capacityKg
        ∧ findOverlappingBookings s.bookings v._id startT
            (startT + calculateRideDuration fromP toP * 3600000) none = []
        ∧ e = availabilityEntry v fromP toP startT := by
    intro e
    unfold findAvailableVehicles availabilityEntry
    simp only [List.mem_map, List.mem_filter, List.mem_insertionSort, Bool.and_eq_true,
      decide_eq_true_eq, beq_iff_eq, List.length_eq_zero]
    constructor
    · rintro ⟨v, ⟨⟨hv, hcap, hact⟩, hnil⟩, rfl⟩
      exact ⟨v, hv, hact, hcap, hnil, rfl⟩
    · rintro ⟨v, hv, hact, hcap, hnil, rfl⟩
      exact ⟨v, ⟨⟨hv, hcap, hact⟩, hnil⟩, rfl⟩
  refine ⟨hmem, ?_, ?_, ?_⟩
  · unfold findAvailableVehicles
    rw [List.map_map]
    exact ((List.sorted_insertionSort capLE _).filter _).map _ (fun a b h => h)
  · intro e he
    rcases (hmem e).mp he with ⟨v, _, _, _, _, rfl⟩
    exact ⟨rfl, rfl, rfl, rfl, rfl⟩
  · intro hall
    unfold findAvailableVehicles
    rw [List.map_eq_nil_iff]
    rw [List.filter_eq_nil_iff]
    intro v hv
    rw [List.mem_insertionSort, List.mem_filter] at hv
    rcases hv with ⟨hv1, hp1⟩
    rw [Bool.and_eq_true, decide_eq_true_eq, beq_iff_eq] at hp1
    rcases hp1 with ⟨hcap, hact⟩
    have hne := hall v hv1 hact hcap
    simp [List.length_eq_zero, hne]

/-- C6 witness: the availability query on an empty fleet returns the empty
list rather than an error. -/
theorem C6_witness : findAvailableVehicles emptyFleetStore 100 ("110001") ("110002") 0 = [] :=
  (C6_findAvailable_spec emptyFleetStore 100 ("110001") ("110002") 0).2.2.2 (by decide)

/-!
Invariant preservation lemmas for the disjointness invariant.
-/

lemma bookings_updateVehicleStatus (s : Store) (id : Nat) (st : String) :
    ((updateVehicleStatus s id st).2).bookings = s.bookings := by
  unfold updateVehicleStatus
  cases h1 : parseVehicleStatus st with
  | none => rfl
  | some ns =>
    cases h2 : s.vehicles.find? (fun v => v._id == id) with
    | none => rfl
    | some v => rfl

lemma no_conflicts_of_filter_nil {bookings : List Booking} {vid : Nat} {startT endT : Int}
    (h : findOverlappingBookings bookings vid startT endT none = [])
    {b : Booking} (hb : b ∈ bookings) (hveh : b.vehicleId = vid) (hact : bookingActive b) :
    ¬ (b.startTime < endT ∧ startT < b.endTime) := by
  intro hov
  unfold findOverlappingBookings at h
  apply List.filter_eq_nil_iff.mp h b hb
  rcases hact with h1 | h1 <;>
    simp [hveh, h1, gt_iff_lt, hov.1, hov.2]

lemma createBooking_preserves_disjoint (s : Store) (now : Int) (req : BookingRequest)
    (h : DisjointBookings s.bookings) :
    DisjointBookings ((createBooking s now req).2).bookings := by
  unfold createBooking
  cases hfind : s.vehicles.find? (fun v => v._id == req.vehicleId) with
  | none => exact h
  | some vehicle =>
    dsimp only
    split
    · exact h
    · split
      · exact h
      · split
        case isFalse => exact h
        case isTrue hlen hval =>
          have hnil : findOverlappingBookings s.bookings req.vehicleId req.startTime
              (req.startTime + calculateRideDuration req.fromPincode req.toPincode * 3600000)
              none = [] := List.length_eq_zero.mp (by omega)
          intro b1 hb1 b2 hb2 hid hveh ha1 ha2 hov
          rcases List.mem_append.mp hb1 with hb1o | hb1n
          · rcases List.mem_append.mp hb2 with hb2o | hb2n
            · exact h b1 hb1o b2 hb2o hid hveh ha1 ha2 hov
            · have hb2e := List.mem_singleton.mp hb2n
              subst hb2e
              exact no_conflicts_of_filter_nil hnil hb1o hveh ha1 ⟨hov.1, hov.2⟩
          · have hb1e := List.mem_singleton.mp hb1n
            subst hb1e
            rcases List.mem_append.mp hb2 with hb2o | hb2n
            · exact no_conflicts_of_filter_nil hnil hb2o (by rw [← hveh]) ha2 ⟨hov.2, hov.1⟩
            · have hb2e := List.mem_singleton.mp hb2n
              subst hb2e
              exact hid rfl

lemma disjoint_map_keep_or_deactivate (l : List Booking) (f : Booking → Booking)
    (h : DisjointBookings l) (hf : ∀ b ∈ l, f b = b ∨ ¬ bookingActive (f b)) :
    DisjointBookings (l.map f) := by
  intro b1 hb1 b2 hb2 hid hveh ha1 ha2
  rcases List.mem_map.mp hb1 with ⟨a1, ha1m, rfl⟩
  rcases List.mem_map.mp hb2 with ⟨a2, ha2m, rfl⟩
  rcases hf a1 ha1m with he1 | he1
  · rcases hf a2 ha2m with he2 | he2
    · rw [he1] at hid hveh ha1 ⊢
      rw [he2] at hid hveh ha2 ⊢
      exact h a1 ha1m a2 ha2m hid hveh ha1 ha2
    · exact absurd ha2 he2
  · exact absurd ha1 he1

lemma cancelBooking_preserves_disjoint (s : Store) (now : Int) (id : Nat)
    (h : DisjointBookings s.bookings) :
    DisjointBookings ((cancelBooking s now id).2).bookings := by
  unfold cancelBooking
  cases hfind : s.bookings.find? (fun b => b._id == id) with
  | none => exact h
  | some booking =>
    dsimp only
    split
    · exact h
    · split
      · exact h
      · apply disjoint_map_keep_or_deactivate _ _ h
        intro b hb
        by_cases hbid : (b._id == id) = true
        · right
          simp [hbid, bookingActive]
        · left
          simp [hbid]

lemma applyOp_preserves_disjoint (s : Store) (op : Op)
    (hop : isGenericStatusUpdate op = false)
    (h : DisjointBookings s.bookings) : DisjointBookings ((applyOp s op).bookings) := by
  cases op with
  | addVehicle body => exact h
  | createBooking now req => exact createBooking_preserves_disjoint s now req h
  | cancelBooking now id => exact cancelBooking_preserves_disjoint s now id h
  | updateBookingStatus id st => exact absurd hop (by simp [isGenericStatusUpdate])
  | updateVehicleStatus id st =>
    rw [show (applyOp s (Op.updateVehicleStatus id st)).bookings = s.bookings from
      bookings_updateVehicleStatus s id st]
    exact h

lemma runOps_disjoint_aux (ops : List Op) :
    ∀ s, DisjointBookings s.bookings → (∀ op ∈ ops, isGenericStatusUpdate op = false) →
      DisjointBookings ((ops.foldl applyOp s).bookings) := by
  induction ops with
  | nil => exact fun s h _ => h
  | cons op rest ih =>
    intro s h hall
    rw [List.foldl_cons]
    exact ih _ (applyOp_preserves_disjoint s op (hall op (List.mem_cons_self op rest)) h)
      (fun o ho => hall o (List.mem_cons_of_mem _ ho))

/-- C1 counterexample: a store reachable through the core operations whose
confirmed bookings on vehicle 0 have identical, overlapping windows — the
generic status update resurrects a cancelled booking into a window that has
been re-booked. -/
theorem C1_counterexample : ¬ DisjointInvariant (runOps c1ops) := by decide

/-- C1 amended: every store reachable through the core operations other
than the generic status update satisfies the pairwise disjointness of
confirmed/in-progress windows per vehicle; in particular every successful
admission preserves the invariant. -/
theorem C1_disjointness_amended :
    (∀ ops : List Op, (∀ op ∈ ops, isGenericStatusUpdate op = false) →
      DisjointInvariant (runOps ops))
    ∧ (∀ (s : Store) (now : Int) (req : BookingRequest),
        DisjointInvariant s → DisjointInvariant (createBooking s now req).2) := by
  constructor
  · intro ops hall
    exact runOps_disjoint_aux ops initialStore
      (fun b1 hb1 => absurd hb1 (List.not_mem_nil b1)) hall
  · intro s now req h
    exact createBooking_preserves_disjoint s now req h

/-- C1 witness: the first four operations (no generic status update) leave
the reachable store disjoint. -/
theorem C1_witness : DisjointInvariant (runOps (c1ops.take 4)) :=
  C1_disjointness_amended.1 (c1ops.take 4) (by decide)

/-!
Object-id hygiene of reachable stores: booking ids are below the fresh-id
counter and pairwise distinct.  Both are maintained by every operation.
-/

lemma map_ids_of_pointwise (l : List Booking) (f : Booking → Booking)
    (hf : ∀ b ∈ l, (f b)._id = b._id) : (l.map f).map Booking._id = l.map Booking._id := by
  rw [List.map_map]
  exact List.map_congr_left hf

lemma ids_ok_of_map_pointwise (s : Store) (f : Booking → Booking)
    (hf : ∀ b ∈ s.bookings, (f b)._id = b._id)
    (hbd : BookingIdsBounded s) (hnd : NodupBookingIds s) :
    BookingIdsBounded { s with bookings := s.bookings.map f }
      ∧ NodupBookingIds { s with bookings := s.bookings.map f } := by
  constructor
  · intro b hb
    rcases List.mem_map.mp hb with ⟨a, ha, rfl⟩
    rw [show (f a)._id = a._id from hf a ha]
    exact hbd a ha
  · show ((s.bookings.map f).map Booking._id).Nodup
    rw [map_ids_of_pointwise s.bookings f hf]
    exact hnd

lemma ids_createBooking (s : Store) (now : Int) (req : BookingRequest)
    (hbd : BookingIdsBounded s) (hnd : NodupBookingIds s) :
    BookingIdsBounded (createBooking s now req).2 ∧ NodupBookingIds (createBooking s now req).2 := by
  unfold createBooking
  cases hfind : s.vehicles.find? (fun v => v._id == req.vehicleId) with
  | none => exact ⟨hbd, hnd⟩
  | some vehicle =>
    dsimp only
    split
    · exact ⟨hbd, hnd⟩
    · split
      · exact ⟨hbd, hnd⟩
      · split
        case isFalse => exact ⟨hbd, hnd⟩
        case isTrue =>
          constructor
          · intro b hb
            rcases List.mem_append.mp hb with hbo | hbn
            · exact Nat.lt_trans (hbd b hbo) (Nat.lt_succ_self _)
            · rw [List.mem_singleton.mp hbn]
              exact Nat.lt_succ_self _
          · show ((s.bookings ++ [_]).map Booking._id).Nodup
            rw [List.map_append]
            rw [List.nodup_append]
            refine ⟨hnd, List.nodup_singleton _, ?_⟩
            intro a ha1 ha2
            have ha2e : a = s.nextId := by simpa using ha2
            subst ha2e
            rcases List.mem_map.mp ha1 with ⟨b, hb, hbe⟩
            have hblt := hbd b hb
            omega

lemma ids_cancelBooking (s : Store) (now : Int) (id : Nat)
    (hbd : BookingIdsBounded s) (hnd : NodupBookingIds s) :
    BookingIdsBounded (cancelBooking s now id).2 ∧ NodupBookingIds (cancelBooking s now id).2 := by
  unfold cancelBooking
  cases hfind : s.bookings.find? (fun b => b._id == id) with
  | none => exact ⟨hbd, hnd⟩
  | some booking =>
    have hbid : booking._id = id := by
      have := List.find?_some hfind
      simpa using this
    dsimp only
    split
    · exact ⟨hbd, hnd⟩
    · split
      · exact ⟨hbd, hnd⟩
      · apply ids_ok_of_map_pointwise s _ _ hbd hnd
        intro b hb
        by_cases hcase : (b._id == id) = true
        · rw [if_pos hcase]
          show booking._id = b._id
          rw [hbid, beq_iff_eq.mp hcase]
        · rw [if_neg hcase]

lemma ids_updateBookingStatus (s : Store) (id : Nat) (st : String)
    (hbd : BookingIdsBounded s) (hnd : NodupBookingIds s) :
    BookingIdsBounded (updateBookingStatus s id st).2
      ∧ NodupBookingIds (updateBookingStatus s id st).2 := by
  unfold updateBookingStatus
  cases h1 : parseBookingStatus st with
  | none => exact ⟨hbd, hnd⟩
  | some ns =>
    cases hfind : s.bookings.find? (fun b => b._id == id) with
    | none => exact ⟨hbd, hnd⟩
    | some booking =>
      have hbid : booking._id = id := by
        have := List.find?_some hfind
        simpa using this
      apply ids_ok_of_map_pointwise s _ _ hbd hnd
      intro b hb
      by_cases hcase : (b._id == id) = true
      · rw [if_pos hcase]
        show booking._id = b._id
        rw [hbid, beq_iff_eq.mp hcase]
      · rw [if_neg hcase]

lemma ids_updateVehicleStatus (s : Store) (id : Nat) (st : String)
    (hbd : BookingIdsBounded s) (hnd : NodupBookingIds s) :
    BookingIdsBounded (updateVehicleStatus s id st).2
      ∧ NodupBookingIds (updateVehicleStatus s id st).2 := by
  unfold updateVehicleStatus
  cases h1 : parseVehicleStatus st with
  | none => exact ⟨hbd, hnd⟩
  | some ns =>
    cases hfind : s.vehicles.find? (fun v => v._id == id) with
    | none => exact ⟨hbd, hnd⟩
    | some v => exact ⟨fun b hb => hbd b hb, hnd⟩

lemma ids_applyOp (s : Store) (op : Op)
    (hbd : BookingIdsBounded s) (hnd : NodupBookingIds s) :
    BookingIdsBounded (applyOp s op) ∧ NodupBookingIds (applyOp s op) := by
  cases op with
  | addVehicle body =>
    exact ⟨fun b hb => Nat.lt_trans (hbd b hb) (Nat.lt_succ_self _), hnd⟩
  | createBooking now req => exact ids_createBooking s now req hbd hnd
  | cancelBooking now id => exact ids_cancelBooking s now id hbd hnd
  | updateBookingStatus id st => exact ids_updateBookingStatus s id st hbd hnd
  | updateVehicleStatus id st => exact ids_updateVehicleStatus s id st hbd hnd

lemma storeIds_ok_aux (ops : List Op) :
    ∀ s, BookingIdsBounded s → NodupBookingIds s →
      BookingIdsBounded (ops.foldl applyOp s) ∧ NodupBookingIds (ops.foldl applyOp s) := by
  induction ops with
  | nil => exact fun s hbd hnd => ⟨hbd, hnd⟩
  | cons op rest ih =>
    intro s hbd hnd
    rw [List.foldl_cons]
    have h := ids_applyOp s op hbd hnd
    exact ih _ h.1 h.2

lemma storeIds_ok (ops : List Op) :
    BookingIdsBounded (runOps ops) ∧ NodupBookingIds (runOps ops) :=
  storeIds_ok_aux ops initialStore
    (fun b hb => absurd hb (List.not_mem_nil b))
    (by simp [NodupBookingIds, initialStore])

lemma status_no_reconfirm_applyOp (s : Store) (op : Op)
    (hop : isGenericStatusUpdate op = false)
    (hbd : BookingIdsBounded s) (hnd : NodupBookingIds s)
    (b : Booking) (hb : b ∈ s.bookings) (hst : b.status ≠ BookingStatus.confirmed)
    (b2 : Booking) (hb2 : b2 ∈ (applyOp s op).bookings) (hid : b2._id = b._id) :
    b2.status ≠ BookingStatus.confirmed := by
  have hinj : ∀ x ∈ s.bookings, x._id = b._id → x = b := by
    intro x hx hxe
    exact List.inj_on_of_nodup_map hnd hx hb hxe
  cases op with
  | addVehicle body =>
    rw [hinj b2 hb2 hid]
    exact hst
  | createBooking now req =>
    have hb2e : b2 ∈ ((createBooking s now req).2).bookings := hb2
    clear hb2
    revert hb2e
    unfold createBooking
    cases hfind : s.vehicles.find? (fun v => v._id == req.vehicleId) with
    | none =>
      intro hb2
      rw [hinj b2 hb2 hid]
      exact hst
    | some vehicle =>
      dsimp only
      split
      · intro hb2
        rw [hinj b2 hb2 hid]
        exact hst
      · split
        · intro hb2
          rw [hinj b2 hb2 hid]
          exact hst
        · split
          case isFalse =>
            intro hb2
            rw [hinj b2 hb2 hid]
            exact hst
          case isTrue =>
            intro hb2
            rcases List.mem_append.mp hb2 with hbo | hbn
            · rw [hinj b2 hbo hid]
              exact hst
            · have hbe := List.mem_singleton.mp hbn
              have : b2._id = s.nextId := by rw [hbe]
              rw [hid] at this
              exact absurd (hbd b hb) (by omega)
  | cancelBooking now id =>
    have hb2e : b2 ∈ ((cancelBooking s now id).2).bookings := hb2
    clear hb2
    revert hb2e
    unfold cancelBooking
    cases hfind : s.bookings.find? (fun x => x._id == id) with
    | none =>
      intro hb2
      rw [hinj b2 hb2 hid]
      exact hst
    | some booking =>
      dsimp only
      split
      · intro hb2
        rw [hinj b2 hb2 hid]
        exact hst
      · split
        · intro hb2
          rw [hinj b2 hb2 hid]
          exact hst
        · intro hb2
          rcases List.mem_map.mp hb2 with ⟨a, ha, hae⟩
          by_cases hcase : (a._id == id) = true
          · rw [← hae]
            simp only [hcase, if_true]
            intro hcontra
            cases hcontra
          · rw [← hae] at hid ⊢
            simp only [hcase, if_false] at hid ⊢
            rw [hinj a ha hid]
            exact hst
  | updateBookingStatus id st => exact absurd hop (by simp [isGenericStatusUpdate])
  | updateVehicleStatus id st =>
    rw [show (applyOp s (Op.updateVehicleStatus id st)).bookings = s.bookings from
      bookings_updateVehicleStatus s id st] at hb2
    rw [hinj b2 hb2 hid]
    exact hst

/-- C8 counterexample: the generic status update DOES flip the cancelled
booking 1 back to confirmed, refuting the claim for that operation. -/
theorem C8_counterexample :
    (runOps c8ops).bookings.map Booking.status = [BookingStatus.cancelled]
    ∧ (applyOp (runOps c8ops) (Op.updateBookingStatus 1 ("confirmed"))).bookings.map Booking.status
        = [BookingStatus.confirmed] := by decide

/-- C8 amended: no core operation OTHER THAN the generic status update ever
gives a reservation whose status is not confirmed the status confirmed: in
any reachable store, a booking that is in-progress, completed or cancelled
before such a call is not confirmed after it. -/
theorem C8_no_reconfirm_amended (ops : List Op) (op : Op)
    (hop : isGenericStatusUpdate op = false)
    (b : Booking) (hb : b ∈ (runOps ops).bookings)
    (hst : b.status ≠ BookingStatus.confirmed)
    (b2 : Booking) (hb2 : b2 ∈ (applyOp (runOps ops) op).bookings)
    (hid : b2._id = b._id) :
    b2.status ≠ BookingStatus.confirmed :=
  status_no_reconfirm_applyOp (runOps ops) op hop (storeIds_ok ops).1 (storeIds_ok ops).2
    b hb hst b2 hb2 hid

lemma c8_bookings_eq : (runOps c8ops).bookings = [c8booking] := rfl

lemma c8_after_vehicle_update_eq :
    (applyOp (runOps c8ops) (Op.updateVehicleStatus 0 ("maintenance"))).bookings
      = [c8booking] := by
  rw [show (applyOp (runOps c8ops) (Op.updateVehicleStatus 0 ("maintenance"))).bookings
      = (runOps c8ops).bookings from bookings_updateVehicleStatus _ _ _]
  exact c8_bookings_eq

/-- C8 witness: after a vehicle status update on the reachable store, the
cancelled booking is still not confirmed. -/
theorem C8_witness : c8booking.status ≠ BookingStatus.confirmed :=
  C8_no_reconfirm_amended c8ops (Op.updateVehicleStatus 0 ("maintenance")) rfl
    c8booking (by rw [c8_bookings_eq]; exact List.mem_singleton_self _) (by decide)
    c8booking (by rw [c8_after_vehicle_update_eq]; exact List.mem_singleton_self _) rfl

/-- C2, evaluated at the failing schedule: when the event loop interleaves
the two admissions as check1, check2, commit1, commit2 — which nothing in
the code prevents, since the conflict query and the save are separate
awaited store operations with no transaction or lock — BOTH requests
succeed and the store ends up with two confirmed bookings on the same
vehicle and window.  Under the fully serialised schedule the second
admission correctly fails with Conflict, so the double success is purely a
race of the check-then-insert window. -/
theorem C2_race_double_success :
    ((runRace 0 demoRequest raceReq2 [false, true, false, true] raceInit).proc1.isCreated = true
      ∧ (runRace 0 demoRequest raceReq2 [false, true, false, true] raceInit).proc2.isCreated = true
      ∧ ¬ DisjointInvariant (runRace 0 demoRequest raceReq2 [false, true, false, true] raceInit).store)
    ∧ ((runRace 0 demoRequest raceReq2 [false, false, true, true] raceInit).proc1.isCreated = true
      ∧ (runRace 0 demoRequest raceReq2 [false, false, true, true] raceInit).proc2.isConflict = true) := by
  decide

end FleetLink
